import Mathlib

/-!
Verification of the esspec OAuth2 credential and token lifecycle manager.

Shallow embedding of `src/scripts/lib/auth-manager.ts` (class `AuthManager`)
and of the consent-URL construction in `src/scripts/auth.ts`.

External effects (file system contents, the current time, the provider's
refresh and token-exchange responses, the credentials obtained by a nested
interactive re-authentication) are passed in as explicit parameters, and each
operation returns a record of the effects it performed (refresh calls,
re-authentication, token saves) together with its result.

JavaScript truthiness tests that appear in the source (`!credentials.expiry_date`,
`if (code)`, `credentials.installed || credentials.web`) are modelled exactly,
including the falsiness of the number `0` and of the empty string.
-/

namespace Esspec

/-- Credentials held by a `google-auth-library` `OAuth2Client`
(`client.credentials`); all fields optional, as in the library's
`Credentials` type.  The on-disk `tokens.json` is parsed into this shape. -/
structure Credentials where
  access_token : Option String
  refresh_token : Option String
  scope : Option String
  token_type : Option String
  expiry_date : Option Int
  deriving Repr, DecidableEq

/-- A client with no credentials set yet (`new OAuth2Client(...)`). -/
def emptyCredentials : Credentials :=
  { access_token := none, refresh_token := none, scope := none,
    token_type := none, expiry_date := none }

/-- One of the `installed` / `web` objects of `credentials.json`:
`{client_id, client_secret, redirect_uris}`.  Fields are `Option` because the
destructuring in the source does not check their presence. -/
structure ClientCredentials where
  client_id : Option String
  client_secret : Option String
  redirect_uris : Option (List String)
  deriving Repr, DecidableEq

/-- The parsed `credentials.json` file: a JSON object that may carry an
`installed` and/or a `web` object. -/
structure CredFile where
  installed : Option ClientCredentials
  web : Option ClientCredentials
  deriving Repr, DecidableEq

/-- The `OAuth2Client` as far as this subsystem observes it: the identity it
was constructed with and its current credentials. -/
structure OAuth2Client where
  clientId : Option String
  clientSecret : Option String
  redirectUri : Option String
  credentials : Credentials
  deriving Repr, DecidableEq

/-- Errors surfaced by `getAuthClient` / `refreshTokensIfNeeded`.
`credentialsNotFound` and `tokenRefreshFailed` correspond to the `Error`s the
source throws; `jsTypeError` is the untyped `TypeError` JavaScript raises when
destructuring `undefined` or indexing into `undefined`.  The constructors
`credentialsMalformed` and `notAuthenticated` belong to the specification's
error taxonomy; they are included so that claims mentioning them can be
stated — the theorems below show the code never produces them. -/
inductive AuthError where
  | credentialsNotFound
  | credentialsMalformed
  | jsTypeError
  | notAuthenticated
  | tokenRefreshFailed
  deriving Repr, DecidableEq

/-- JavaScript truthiness of an optional number: `undefined`, `null` and `0`
are falsy (`!credentials.expiry_date`). -/
def jsTruthyInt : Option Int → Bool
  | none => false
  | some n => n != 0

/-- JavaScript truthiness of an optional string: `undefined` and `""` are
falsy (`if (code)`). -/
def jsTruthyStr : Option String → Bool
  | none => false
  | some s => s != ""

/-- JavaScript `a || b` on two optional objects
(`credentials.installed || credentials.web`): an object is truthy whenever
present. -/
def jsOr (a b : Option ClientCredentials) : Option ClientCredentials :=
  match a with
  | some x => some x
  | none => b

/-- The 5-minute expiry buffer of `refreshTokensIfNeeded`
(`const bufferTime = 5 * 60 * 1000`). -/
def bufferTime : Int := 5 * 60 * 1000

/-- Modelled from the spec: the merge performed by `google-auth-library`'s
`OAuth2Client.refreshAccessToken`, a dependency whose source is not part of
this repository.  Per the spec, the refresh response is merged into the
existing token set "preserving the old refresh token if none is returned":
every field comes from the response, except `refresh_token`, which falls back
to the previously stored one when the response omits it. -/
def refreshAccessTokenMerge (old resp : Credentials) : Credentials :=
  { resp with
    refresh_token :=
      match resp.refresh_token with
      | some r => some r
      | none => old.refresh_token }

/-- Effects and result of one `refreshTokensIfNeeded` call. -/
structure RefreshEffects where
  /-- number of `client.refreshAccessToken()` network calls performed -/
  refreshCalls : Nat
  /-- whether the interactive `authenticate()` flow was started -/
  authenticateCalled : Bool
  /-- the token set written by `saveTokens`, if any save happened here -/
  savedTokens : Option Credentials
  /-- the client's credentials afterwards, or the error thrown -/
  result : Except AuthError Credentials
  deriving Repr

/-- Embedding of `AuthManager.refreshTokensIfNeeded` (auth-manager.ts, lines 94–127).

`creds` is `client.credentials`; `now` is `Date.now()`; `refreshResult` is the
outcome of the provider refresh round trip (`Except.error` when
`client.refreshAccessToken()` throws), out of which `refreshAccessTokenMerge`
builds `newCredentials`; `reauthCredentials` is the credential set of the
client a nested `authenticate()` would return.

The guard `if (!credentials.expiry_date) return;` is JS truthiness, so an
`expiry_date` of `0` is treated like an absent one. -/
def refreshTokensIfNeeded (creds : Credentials) (now : Int)
    (autoReauthenticate : Bool) (refreshResult : Except String Credentials)
    (reauthCredentials : Credentials) : RefreshEffects :=
  if jsTruthyInt creds.expiry_date then
    let expiryTime := creds.expiry_date.getD 0
    if expiryTime - now < bufferTime then
      match refreshResult with
      | Except.ok resp =>
        let newCredentials := refreshAccessTokenMerge creds resp
        { refreshCalls := 1, authenticateCalled := false,
          savedTokens := some newCredentials,
          result := Except.ok newCredentials }
      | Except.error _ =>
        if autoReauthenticate then
          { refreshCalls := 1, authenticateCalled := true,
            savedTokens := none, result := Except.ok reauthCredentials }
        else
          { refreshCalls := 1, authenticateCalled := false,
            savedTokens := none, result := Except.error AuthError.tokenRefreshFailed }
    else
      { refreshCalls := 0, authenticateCalled := false,
        savedTokens := none, result := Except.ok creds }
  else
    { refreshCalls := 0, authenticateCalled := false,
      savedTokens := none, result := Except.ok creds }

/-- Effects and result of one `getAuthClient` call. -/
structure GetAuthClientEffects where
  refreshCalls : Nat
  authenticateCalled : Bool
  savedTokens : Option Credentials
  result : Except AuthError OAuth2Client
  deriving Repr

/-- Embedding of `AuthManager.getAuthClient` (auth-manager.ts, lines 37–70).

`fsCredentials` is the parsed content of `credentials.json` (`none` when the
file does not exist); `fsTokens` likewise for `tokens.json`.  Loading the
client identity mirrors the source exactly: a missing file throws the
"Credentials file not found" error; `credentials.installed || credentials.web`
being absent makes the destructuring throw a `TypeError`, as does
`redirect_uris[0]` when `redirect_uris` is absent; missing `client_id` or
`client_secret` are passed through to the `OAuth2Client` constructor
unchecked. -/
def getAuthClient (fsCredentials : Option CredFile) (fsTokens : Option Credentials)
    (now : Int) (autoReauthenticate : Bool)
    (refreshResult : Except String Credentials)
    (reauthCredentials : Credentials) : GetAuthClientEffects :=
  match fsCredentials with
  | none =>
    { refreshCalls := 0, authenticateCalled := false, savedTokens := none,
      result := Except.error AuthError.credentialsNotFound }
  | some credFile =>
    match jsOr credFile.installed credFile.web with
    | none =>
      { refreshCalls := 0, authenticateCalled := false, savedTokens := none,
        result := Except.error AuthError.jsTypeError }
    | some cc =>
      match cc.redirect_uris with
      | none =>
        { refreshCalls := 0, authenticateCalled := false, savedTokens := none,
          result := Except.error AuthError.jsTypeError }
      | some uris =>
        let client : OAuth2Client :=
          { clientId := cc.client_id, clientSecret := cc.client_secret,
            redirectUri := uris.head?, credentials := emptyCredentials }
        match fsTokens with
        | some tokens =>
          let eff := refreshTokensIfNeeded tokens now autoReauthenticate
            refreshResult reauthCredentials
          { refreshCalls := eff.refreshCalls,
            authenticateCalled := eff.authenticateCalled,
            savedTokens := eff.savedTokens,
            result := eff.result.map fun c => { client with credentials := c } }
        | none =>
          if autoReauthenticate then
            { refreshCalls := 0, authenticateCalled := true, savedTokens := none,
              result := Except.ok { client with credentials := reauthCredentials } }
          else
            { refreshCalls := 0, authenticateCalled := false, savedTokens := none,
              result := Except.ok client }

/-! The consent URLs (`generateAuthUrl` arguments).

Both `AuthManager.authenticate` (auth-manager.ts, lines 180–184) and the
`main` function of `src/scripts/auth.ts` (lines 44–47) build a consent URL. -/

/-- Arguments passed to `client.generateAuthUrl`. -/
structure GenerateAuthUrlParams where
  access_type : Option String
  scope : List String
  prompt : Option String
  deriving Repr, DecidableEq

/-- The constant
`YOUTUBE_SCOPES = ['https://www.googleapis.com/auth/youtube.force-ssl']`
(identical in auth-manager.ts line 10 and auth.ts line 8). -/
def YOUTUBE_SCOPES : List String :=
  ["https://www.googleapis.com/auth/youtube.force-ssl"]

/-- The `generateAuthUrl` call of `AuthManager.authenticate`
(auth-manager.ts, lines 180–184). -/
def authenticateAuthUrlParams : GenerateAuthUrlParams :=
  { access_type := some "offline", scope := YOUTUBE_SCOPES,
    prompt := some "consent" }

/-- The `generateAuthUrl` call of `main` in `src/scripts/auth.ts`
(lines 44–47): no `prompt` key is passed. -/
def authScriptAuthUrlParams : GenerateAuthUrlParams :=
  { access_type := some "offline", scope := YOUTUBE_SCOPES, prompt := none }

/-! The callback wait of `AuthManager.authenticate`.

The promise body of auth-manager.ts, lines 197–281: a local HTTP server and a
5-minute timer race to settle the promise.  We model it as a transition
system.  The state records whether the timer is still armed, whether the
listener is still held, what (if anything) the promise settled with, the
persisted `tokens.json` content, and the HTTP status codes of the pages sent
back to the browser.  Environment events are an incoming HTTP request (with
its parsed `code` and `error` query parameters), the timer firing, and the
server's `error` event with its error code.  The provider's code-for-token
exchange is an oracle `exchange : String → Except String Credentials` fixed
for the run.  A promise settles at most once; later `resolve`/`reject` calls
are ignored, which `settle` models by keeping the first outcome. -/

/-- How the `authenticate` promise settles.  `resolvedClient` is
`resolve(client)` after a successful exchange; `exchangeError` the
`reject(error)` of the exchange `catch` block; `timedOut` the timeout
rejection; `portInUse` the `EADDRINUSE` rejection; `serverError` the
rejection for any other server error.  `providerError` is the outcome the
specification claims for a consent-denied redirect; the theorems below show
it is never produced. -/
inductive Outcome where
  | resolvedClient (tokens : Credentials)
  | exchangeError (msg : String)
  | timedOut
  | portInUse
  | serverError (code : String)
  | providerError (msg : String)
  deriving Repr, DecidableEq

/-- State of one `authenticate` callback wait. -/
structure FlowState where
  timerActive : Bool
  serverOpen : Bool
  settled : Option Outcome
  /-- parsed content of `tokens.json` (shared with `saveTokens`) -/
  tokensFile : Option Credentials
  /-- HTTP status codes of the responses sent to the browser, in order -/
  responses : List Nat
  deriving Repr, DecidableEq

/-- The state right after lines 197–271 set the timer and start the server:
timer armed, listener held, nothing settled, no page sent; `tokensFile` holds
whatever `tokens.json` held before. -/
def initState (tokensFile : Option Credentials) : FlowState :=
  { timerActive := true, serverOpen := true, settled := none,
    tokensFile := tokensFile, responses := [] }

/-- The `cleanup` closure (lines 201–210): clears the timer and closes the
server. -/
def cleanup (s : FlowState) : FlowState :=
  { s with timerActive := false, serverOpen := false }

/-- A `resolve`/`reject` call on the promise: only the first settlement is
kept (JavaScript promises ignore later settlement attempts). -/
def settle (s : FlowState) (o : Outcome) : FlowState :=
  match s.settled with
  | some _ => s
  | none => { s with settled := some o }

/-- Environment events driving the wait. -/
inductive Event where
  /-- an HTTP request reaches the handler; `hasUrl` is whether `req.url` is
  set, `qcode`/`qerror` the parsed `code` and `error` query parameters -/
  | request (hasUrl : Bool) (qcode qerror : Option String)
  /-- the 5-minute timer fires -/
  | timeout
  /-- the server emits an `error` event with this `code` -/
  | serverErr (code : String)

/-- The request handler (lines 218–266).  A missing `req.url` returns at
once.  A truthy `code` parameter is exchanged: on success the tokens are
saved, a 200 success page is sent, then `cleanup()` and `resolve(client)`;
on failure a 500 failure page is sent, then `cleanup()` and `reject(error)`.
A request without a truthy `code` — in particular one carrying only an
`error` parameter — falls through the `if (code)` block and is ignored. -/
def handleRequest (exchange : String → Except String Credentials)
    (s : FlowState) (hasUrl : Bool) (qcode _qerror : Option String) :
    FlowState :=
  if hasUrl then
    if jsTruthyStr qcode then
      match exchange (qcode.getD "") with
      | Except.ok tokens =>
        settle (cleanup { s with tokensFile := some tokens,
                                 responses := s.responses ++ [200] })
          (Outcome.resolvedClient tokens)
      | Except.error e =>
        settle (cleanup { s with responses := s.responses ++ [500] })
          (Outcome.exchangeError e)
    else s
  else s

/-- One transition of the callback wait.  Requests are only received while
the listener is held; the timer callback only runs while the timer is armed;
the server's `error` handler (lines 273–280) runs `cleanup()` and rejects
with `PortInUse` for `EADDRINUSE`, or with the error itself otherwise. -/
def step (exchange : String → Except String Credentials)
    (s : FlowState) : Event → FlowState
  | Event.request hasUrl qcode qerror =>
    if s.serverOpen then handleRequest exchange s hasUrl qcode qerror else s
  | Event.timeout =>
    if s.timerActive then settle (cleanup s) Outcome.timedOut else s
  | Event.serverErr code =>
    if s.serverOpen then
      settle (cleanup s)
        (if code = "EADDRINUSE" then Outcome.portInUse
         else Outcome.serverError code)
    else s

/-- A whole run of the callback wait over a sequence of environment events. -/
def run (exchange : String → Except String Credentials)
    (s : FlowState) (evs : List Event) : FlowState :=
  evs.foldl (step exchange) s

/-- Is this outcome one of the four the specification lists for
`waitForCode` — code received (its exchange succeeding or failing), provider
error, timed out, port in use?  Any other listener error is not among them. -/
def claimedOutcome : Outcome → Bool
  | Outcome.resolvedClient _ => true
  | Outcome.exchangeError _ => true
  | Outcome.providerError _ => true
  | Outcome.timedOut => true
  | Outcome.portInUse => true
  | Outcome.serverError _ => false

/-- Is this outcome a `providerError`? -/
def isProviderErrorOutcome : Outcome → Bool
  | Outcome.providerError _ => true
  | _ => false

/-- Is this outcome a `resolve` (successful completion of the flow)? -/
def isResolution : Outcome → Bool
  | Outcome.resolvedClient _ => true
  | _ => false

/-! Shared concrete inputs used by counterexamples and witnesses. -/

/-- An exchange oracle on which `client.getToken` always throws. -/
def exchFail : String → Except String Credentials :=
  fun _ => Except.error "invalid_grant"

/-- A well-formed `installed` object of `credentials.json`. -/
def ccW : ClientCredentials :=
  { client_id := some "id.apps.googleusercontent.com",
    client_secret := some "secret",
    redirect_uris := some ["http://localhost:3000"] }

/-- A well-formed parsed `credentials.json`. -/
def credFileW : CredFile := { installed := some ccW, web := none }

/-- An `installed` object missing `client_id` and `client_secret`. -/
def ccNoId : ClientCredentials :=
  { client_id := none, client_secret := none,
    redirect_uris := some ["http://localhost:3000"] }

/-- A parsed `credentials.json` whose `installed` object lacks the client
identity fields. -/
def credFileNoId : CredFile := { installed := some ccNoId, web := none }

/-- A parsed `credentials.json` with neither `installed` nor `web`. -/
def credFileEmpty : CredFile := { installed := none, web := none }

/-- A stored token set without an `expiry_date`. -/
def credsNoExpiry : Credentials :=
  { access_token := some "at", refresh_token := some "rt",
    scope := some "sc", token_type := some "Bearer", expiry_date := none }

/-- A stored token set whose `expiry_date` equals `0`. -/
def credsZeroExpiry : Credentials :=
  { access_token := some "at", refresh_token := some "rt",
    scope := some "sc", token_type := some "Bearer", expiry_date := some 0 }

/-- A stored token set about to expire (`expiry_date = 1`). -/
def credsExpiring : Credentials :=
  { access_token := some "at", refresh_token := some "rt",
    scope := some "sc", token_type := some "Bearer", expiry_date := some 1 }

/-- A refresh response that omits `refresh_token`. -/
def respNoRefreshToken : Credentials :=
  { access_token := some "at2", refresh_token := none,
    scope := some "sc2", token_type := some "Bearer2", expiry_date := some 999 }

/-! Invariants of the callback wait. -/

/-- The resource/settlement invariant of the callback wait: while unsettled,
the timer is armed and the listener held; once settled, the timer is cleared,
the listener is closed, and the outcome is never a provider error. -/
def FlowInv (s : FlowState) : Prop :=
  (s.settled = none → s.timerActive = true ∧ s.serverOpen = true) ∧
  ∀ o, s.settled = some o →
    s.timerActive = false ∧ s.serverOpen = false ∧
    isProviderErrorOutcome o = false

theorem flowInv_initState (t0 : Option Credentials) : FlowInv (initState t0) := by
  constructor
  · intro _; exact ⟨rfl, rfl⟩
  · intro o h; simp [initState] at h

theorem cleanup_settled (s : FlowState) : (cleanup s).settled = s.settled := rfl

theorem settle_settled_of_some (s : FlowState) (o o' : Outcome)
    (h : s.settled = some o) : (settle s o').settled = some o := by
  simp [settle, h]

theorem flowInv_settle_cleanup (s : FlowState) (o : Outcome)
    (ho : isProviderErrorOutcome o = false)
    (hprev : ∀ o', s.settled = some o' → isProviderErrorOutcome o' = false) :
    FlowInv (settle (cleanup s) o) := by
  unfold FlowInv settle cleanup
  cases hs : s.settled with
  | none =>
    simp [hs]
    exact ho
  | some o' =>
    simp [hs]
    exact hprev o' hs

theorem flowInv_step (exchange : String → Except String Credentials)
    (s : FlowState) (e : Event) (h : FlowInv s) :
    FlowInv (step exchange s e) := by
  cases e with
  | request hasUrl qcode qerror =>
    by_cases hso : s.serverOpen = true
    · simp only [step, hso, if_true]
      unfold handleRequest
      cases hasUrl with
      | false => simpa using h
      | true =>
        cases hq : jsTruthyStr qcode with
        | false => simpa [hq] using h
        | true =>
          simp only [hq, if_true]
          cases hex : exchange (qcode.getD "") with
          | ok tokens =>
            exact flowInv_settle_cleanup _ _ rfl
              (fun o' ho' => (h.2 o' ho').2.2)
          | error msg =>
            exact flowInv_settle_cleanup _ _ rfl
              (fun o' ho' => (h.2 o' ho').2.2)
    · simpa [step, hso] using h
  | timeout =>
    by_cases ht : s.timerActive = true
    · simp only [step, ht, if_true]
      exact flowInv_settle_cleanup _ _ rfl (fun o' ho' => (h.2 o' ho').2.2)
    · simpa [step, ht] using h
  | serverErr code =>
    by_cases hso : s.serverOpen = true
    · simp only [step, hso, if_true]
      apply flowInv_settle_cleanup _ _ _ (fun o' ho' => (h.2 o' ho').2.2)
      by_cases hc : code = "EADDRINUSE" <;> simp [hc, isProviderErrorOutcome]
    · simpa [step, hso] using h

theorem flowInv_run (exchange : String → Except String Credentials)
    (evs : List Event) (s : FlowState) (h : FlowInv s) :
    FlowInv (run exchange s evs) := by
  induction evs generalizing s with
  | nil => exact h
  | cons e rest ih => exact ih (step exchange s e) (flowInv_step exchange s e h)

theorem step_settled_mono (exchange : String → Except String Credentials)
    (s : FlowState) (e : Event) (o : Outcome) (h : s.settled = some o) :
    (step exchange s e).settled = some o := by
  cases e with
  | request hasUrl qcode qerror =>
    by_cases hso : s.serverOpen = true
    · simp only [step, hso, if_true]
      unfold handleRequest
      cases hasUrl with
      | false => simpa using h
      | true =>
        cases hq : jsTruthyStr qcode with
        | false => simpa [hq] using h
        | true =>
          simp only [hq, if_true]
          cases hex : exchange (qcode.getD "") with
          | ok tokens => exact settle_settled_of_some _ _ _ h
          | error msg => exact settle_settled_of_some _ _ _ h
    · simpa [step, hso] using h
  | timeout =>
    by_cases ht : s.timerActive = true
    · simp only [step, ht, if_true]
      exact settle_settled_of_some _ _ _ h
    · simpa [step, ht] using h
  | serverErr code =>
    by_cases hso : s.serverOpen = true
    · simp only [step, hso, if_true]
      exact settle_settled_of_some _ _ _ h
    · simpa [step, hso] using h

theorem run_settled_mono (exchange : String → Except String Credentials)
    (evs : List Event) (s : FlowState) (o : Outcome) (h : s.settled = some o) :
    (run exchange s evs).settled = some o := by
  induction evs generalizing s with
  | nil => exact h
  | cons e rest ih => exact ih _ (step_settled_mono exchange s e o h)

theorem run_append (exchange : String → Except String Credentials)
    (s : FlowState) (evs evs' : List Event) :
    run exchange s (evs ++ evs') = run exchange (run exchange s evs) evs' := by
  simp [run, List.foldl_append]

/-- Each step either leaves the token file untouched, or writes the result of
a successful exchange. -/
theorem step_tokensFile (exchange : String → Except String Credentials)
    (s : FlowState) (e : Event) :
    (step exchange s e).tokensFile = s.tokensFile ∨
    ∃ c t, exchange c = Except.ok t ∧ (step exchange s e).tokensFile = some t := by
  cases e with
  | request hasUrl qcode qerror =>
    by_cases hso : s.serverOpen = true
    · simp only [step, hso, if_true]
      unfold handleRequest
      cases hasUrl with
      | false => exact Or.inl rfl
      | true =>
        cases hq : jsTruthyStr qcode with
        | false => simp [hq]
        | true =>
          simp only [hq, if_true]
          cases hex : exchange (qcode.getD "") with
          | ok tokens =>
            refine Or.inr ⟨qcode.getD "", tokens, hex, ?_⟩
            cases hs : s.settled <;> simp [settle, cleanup, hs]
          | error msg =>
            refine Or.inl ?_
            cases hs : s.settled <;> simp [settle, cleanup, hs]
    · simp [step, hso]
  | timeout =>
    refine Or.inl ?_
    by_cases ht : s.timerActive = true <;>
      cases hs : s.settled <;> simp [step, ht, settle, cleanup, hs]
  | serverErr code =>
    refine Or.inl ?_
    by_cases hso : s.serverOpen = true <;>
      cases hs : s.settled <;> simp [step, hso, settle, cleanup, hs]

/-- Each step never settles with a resolution unless its exchange succeeded:
if the step's state is newly settled with a resolution, some exchange
succeeded. -/
theorem step_resolution (exchange : String → Except String Credentials)
    (s : FlowState) (e : Event)
    (hfail : ∀ c, ∃ msg, exchange c = Except.error msg)
    (h : ∀ o, s.settled = some o → isResolution o = false) :
    ∀ o, (step exchange s e).settled = some o → isResolution o = false := by
  cases e with
  | request hasUrl qcode qerror =>
    by_cases hso : s.serverOpen = true
    · simp only [step, hso, if_true]
      unfold handleRequest
      cases hasUrl with
      | false => simpa using h
      | true =>
        cases hq : jsTruthyStr qcode with
        | false => simpa [hq] using h
        | true =>
          simp only [hq, if_true]
          cases hex : exchange (qcode.getD "") with
          | ok tokens =>
            rcases hfail (qcode.getD "") with ⟨msg, hmsg⟩
            rw [hex] at hmsg
            cases hmsg
          | error msg =>
            intro o ho
            cases hs : s.settled with
            | none =>
              simp [settle, cleanup, hs] at ho
              rw [← ho]
              rfl
            | some o' =>
              simp [settle, cleanup, hs] at ho
              rw [← ho]
              exact h o' hs
    · simpa [step, hso] using h
  | timeout =>
    intro o ho
    by_cases ht : s.timerActive = true
    · simp only [step, ht, if_true] at ho
      cases hs : s.settled with
      | none =>
        simp [settle, cleanup, hs] at ho
        rw [← ho]
        rfl
      | some o' =>
        simp [settle, cleanup, hs] at ho
        rw [← ho]
        exact h o' hs
    · simp [step, ht] at ho
      exact h o ho
  | serverErr code =>
    intro o ho
    by_cases hso : s.serverOpen = true
    · simp only [step, hso, if_true] at ho
      cases hs : s.settled with
      | none =>
        simp [settle, cleanup, hs] at ho
        rw [← ho]
        by_cases hc : code = "EADDRINUSE" <;> simp [hc, isResolution]
      | some o' =>
        simp [settle, cleanup, hs] at ho
        rw [← ho]
        exact h o' hs
    · simp [step, hso] at ho
      exact h o ho

/-! Claims. -/

/-- C1: for every refresh performed by `getAuthClient`/`refreshTokensIfNeeded`
whose refresh response omits a refresh token, the token set persisted via
`saveTokens` still contains the previously stored refresh token, and every
other field is taken from the refresh response; the refresh token present
before the refresh is never discarded. -/
theorem refresh_preserves_refresh_token
    (creds resp reauth : Credentials) (now e : Int) (auto : Bool)
    (he : creds.expiry_date = some e) (he0 : e ≠ 0)
    (hbuf : e - now < bufferTime)
    (homit : resp.refresh_token = none) :
    (refreshTokensIfNeeded creds now auto (Except.ok resp) reauth).refreshCalls = 1 ∧
    (refreshTokensIfNeeded creds now auto (Except.ok resp) reauth).savedTokens =
      some { access_token := resp.access_token,
             refresh_token := creds.refresh_token,
             scope := resp.scope,
             token_type := resp.token_type,
             expiry_date := resp.expiry_date } := by
  have ht : jsTruthyInt (some e) = true := by
    simpa [jsTruthyInt] using he0
  constructor <;>
    simp [refreshTokensIfNeeded, ht, he, hbuf, refreshAccessTokenMerge, homit]

/-- Witness for `refresh_preserves_refresh_token` at a concrete expiring
token set and a concrete response lacking `refresh_token`. -/
theorem refresh_preserves_refresh_token_witness :
    (refreshTokensIfNeeded credsExpiring 0 false
        (Except.ok respNoRefreshToken) emptyCredentials).refreshCalls = 1 ∧
    (refreshTokensIfNeeded credsExpiring 0 false
        (Except.ok respNoRefreshToken) emptyCredentials).savedTokens =
      some { access_token := respNoRefreshToken.access_token,
             refresh_token := credsExpiring.refresh_token,
             scope := respNoRefreshToken.scope,
             token_type := respNoRefreshToken.token_type,
             expiry_date := respNoRefreshToken.expiry_date } :=
  refresh_preserves_refresh_token credsExpiring respNoRefreshToken
    emptyCredentials 0 1 false rfl (by decide) (by decide) rfl

/-- C2 counterexample: with a well-formed credentials file present, no stored
token set and `autoReauthenticate = false`, `getAuthClient` does not fail
with `NotAuthenticated` — it returns a client with no credentials set. -/
theorem no_tokens_no_reauth_returns_client_cex :
    (getAuthClient (some credFileW) none 0 false (Except.error "net")
        emptyCredentials).result
      = Except.ok { clientId := some "id.apps.googleusercontent.com",
                    clientSecret := some "secret",
                    redirectUri := some "http://localhost:3000",
                    credentials := emptyCredentials } := rfl

/-- C2 amended: with a valid client identity, no stored token set and
`autoReauthenticate = false`, `getAuthClient` performs no refresh call and no
re-authentication (hence no network call), saves nothing, and returns — it
does not fail — a client whose credentials are unset. -/
theorem no_tokens_no_reauth_behavior
    (cf : CredFile) (cc : ClientCredentials) (uris : List String)
    (now : Int) (refreshResult : Except String Credentials)
    (reauth : Credentials)
    (hcc : jsOr cf.installed cf.web = some cc)
    (huris : cc.redirect_uris = some uris) :
    getAuthClient (some cf) none now false refreshResult reauth =
      { refreshCalls := 0, authenticateCalled := false, savedTokens := none,
        result := Except.ok { clientId := cc.client_id,
                              clientSecret := cc.client_secret,
                              redirectUri := uris.head?,
                              credentials := emptyCredentials } } := by
  simp [getAuthClient, hcc, huris]

/-- Witness for `no_tokens_no_reauth_behavior` at the concrete well-formed
credentials file. -/
theorem no_tokens_no_reauth_behavior_witness :
    getAuthClient (some credFileW) none 0 false (Except.error "net")
        emptyCredentials =
      { refreshCalls := 0, authenticateCalled := false, savedTokens := none,
        result := Except.ok { clientId := ccW.client_id,
                              clientSecret := ccW.client_secret,
                              redirectUri := (["http://localhost:3000"]).head?,
                              credentials := emptyCredentials } } :=
  no_tokens_no_reauth_behavior credFileW ccW ["http://localhost:3000"] 0
    (Except.error "net") emptyCredentials rfl rfl

/-- C3 counterexample: the first request carrying an `error` query parameter
(user denied consent) is ignored by the handler: the state is exactly
unchanged — no failure page is sent, the listener and timer stay held, and
nothing resolves with a provider-error outcome. -/
theorem error_request_ignored_cex :
    step exchFail (initState none)
        (Event.request true none (some "access_denied"))
      = initState none ∧
    (initState none).settled = none ∧
    (initState none).responses = [] ∧
    (initState none).timerActive = true ∧
    (initState none).serverOpen = true := ⟨rfl, rfl, rfl, rfl, rfl⟩

/-- C3 amended: a request whose `code` query parameter is not truthy — in
particular one carrying only an `error` parameter — is ignored entirely: the
state is unchanged (no page sent, listener and timer still held, nothing
resolved), and the flow settles only later, e.g. with `timedOut` when the
timer fires. -/
theorem error_request_ignored
    (exchange : String → Except String Credentials) (s : FlowState)
    (t0 : Option Credentials) (hasUrl : Bool) (qcode : Option String)
    (errMsg : String) (hcode : jsTruthyStr qcode = false) :
    step exchange s (Event.request hasUrl qcode (some errMsg)) = s ∧
    (run exchange (initState t0)
        [Event.request hasUrl qcode (some errMsg), Event.timeout]).settled
      = some Outcome.timedOut := by
  have hstep : ∀ s' : FlowState,
      step exchange s' (Event.request hasUrl qcode (some errMsg)) = s' := by
    intro s'
    by_cases hso : s'.serverOpen = true <;>
      cases hasUrl <;> simp [step, hso, handleRequest, hcode]
  constructor
  · exact hstep s
  · show (step exchange (step exchange (initState t0)
        (Event.request hasUrl qcode (some errMsg))) Event.timeout).settled
      = some Outcome.timedOut
    rw [hstep]
    simp [step, initState, settle, cleanup]

/-- Witness for `error_request_ignored` at a concrete consent-denied
request. -/
theorem error_request_ignored_witness :
    step exchFail (initState (some credsExpiring))
        (Event.request true none (some "access_denied"))
      = initState (some credsExpiring) ∧
    (run exchFail (initState (some credsExpiring))
        [Event.request true none (some "access_denied"), Event.timeout]).settled
      = some Outcome.timedOut :=
  error_request_ignored exchFail (initState (some credsExpiring))
    (some credsExpiring) true none "access_denied" rfl

/-- C4 counterexample: a stored token set with `expiry_date = 0` — an expiry
timestamp far in the past, hence well within the buffer — triggers no
refresh, because the guard `!credentials.expiry_date` treats the falsy
number `0` as an absent expiry. -/
theorem refresh_iff_buffer_cex :
    (getAuthClient (some credFileW) (some credsZeroExpiry) 1700000000000 false
        (Except.ok respNoRefreshToken) emptyCredentials).refreshCalls = 0 ∧
    ((0 : Int) - 1700000000000 < bufferTime) := ⟨rfl, by decide⟩

/-- C4 amended: for every loaded token set whose `expiry_date` is present
and nonzero, `getAuthClient` performs exactly one refresh call if and only
if `expiry_date − now` is below the 5-minute buffer; otherwise it performs
no refresh and no re-authentication, saves nothing, and returns the client
with the stored credentials unchanged. -/
theorem refresh_iff_buffer
    (cf : CredFile) (cc : ClientCredentials) (uris : List String)
    (creds reauth : Credentials) (e now : Int) (auto : Bool)
    (refreshResult : Except String Credentials)
    (hcc : jsOr cf.installed cf.web = some cc)
    (huris : cc.redirect_uris = some uris)
    (he : creds.expiry_date = some e) (he0 : e ≠ 0) :
    ((getAuthClient (some cf) (some creds) now auto refreshResult
        reauth).refreshCalls = 1 ↔ e - now < bufferTime) ∧
    (¬ e - now < bufferTime →
      getAuthClient (some cf) (some creds) now auto refreshResult reauth =
        { refreshCalls := 0, authenticateCalled := false, savedTokens := none,
          result := Except.ok { clientId := cc.client_id,
                                clientSecret := cc.client_secret,
                                redirectUri := uris.head?,
                                credentials := creds } }) := by
  have ht : jsTruthyInt (some e) = true := by
    simpa [jsTruthyInt] using he0
  by_cases hb : e - now < bufferTime
  · have h1 : (getAuthClient (some cf) (some creds) now auto refreshResult
        reauth).refreshCalls = 1 := by
      cases refreshResult with
      | ok r =>
        simp [getAuthClient, hcc, huris, refreshTokensIfNeeded, ht, he, hb]
      | error msg =>
        cases auto <;>
          simp [getAuthClient, hcc, huris, refreshTokensIfNeeded, ht, he, hb]
    exact ⟨⟨fun _ => hb, fun _ => h1⟩, fun hnb => absurd hb hnb⟩
  · have h0 : getAuthClient (some cf) (some creds) now auto refreshResult
        reauth =
        { refreshCalls := 0, authenticateCalled := false, savedTokens := none,
          result := Except.ok { clientId := cc.client_id,
                                clientSecret := cc.client_secret,
                                redirectUri := uris.head?,
                                credentials := creds } } := by
      simp [getAuthClient, hcc, huris, refreshTokensIfNeeded, ht, he, hb,
        Except.map]
    refine ⟨⟨fun h1 => ?_, fun hlt => absurd hlt hb⟩, fun _ => h0⟩
    rw [h0] at h1
    simp at h1

/-- Witness for `refresh_iff_buffer` at a concrete about-to-expire token
set. -/
theorem refresh_iff_buffer_witness :
    ((getAuthClient (some credFileW) (some credsExpiring) 0 false
        (Except.ok respNoRefreshToken) emptyCredentials).refreshCalls = 1
      ↔ (1 : Int) - 0 < bufferTime) ∧
    (¬ (1 : Int) - 0 < bufferTime →
      getAuthClient (some credFileW) (some credsExpiring) 0 false
          (Except.ok respNoRefreshToken) emptyCredentials =
        { refreshCalls := 0, authenticateCalled := false, savedTokens := none,
          result := Except.ok { clientId := ccW.client_id,
                                clientSecret := ccW.client_secret,
                                redirectUri := (["http://localhost:3000"]).head?,
                                credentials := credsExpiring } }) :=
  refresh_iff_buffer credFileW ccW ["http://localhost:3000"] credsExpiring
    emptyCredentials 1 0 false (Except.ok respNoRefreshToken) rfl rfl rfl
    (by decide)

/-- C5 counterexample: a listener `error` event whose code is not
`EADDRINUSE` (here `EACCES`) settles the wait with a `serverError` outcome,
which is none of the four outcomes the claim lists (code received, provider
error, timed out, port in use). -/
theorem outcome_not_among_four_cex :
    (run exchFail (initState none) [Event.serverErr "EACCES"]).settled
      = some (Outcome.serverError "EACCES") ∧
    claimedOutcome (Outcome.serverError "EACCES") = false := ⟨rfl, rfl⟩

/-- C5 amended: the callback wait settles at most once — the first outcome
is kept under any further events — the outcome is never a provider error
(the realizable outcomes are code-exchange success or failure, timeout,
port-in-use, and other listener errors), the timer is cleared and the
listener closed by the time any outcome is delivered, and while unsettled
both remain held. -/
theorem flow_outcomes_and_cleanup
    (exchange : String → Except String Credentials) (t0 : Option Credentials)
    (evs : List Event) :
    (∀ o, (run exchange (initState t0) evs).settled = some o →
        (run exchange (initState t0) evs).timerActive = false ∧
        (run exchange (initState t0) evs).serverOpen = false ∧
        isProviderErrorOutcome o = false) ∧
    ((run exchange (initState t0) evs).settled = none →
        (run exchange (initState t0) evs).timerActive = true ∧
        (run exchange (initState t0) evs).serverOpen = true) ∧
    (∀ o evs', (run exchange (initState t0) evs).settled = some o →
        (run exchange (initState t0) (evs ++ evs')).settled = some o) := by
  have hinv := flowInv_run exchange evs (initState t0) (flowInv_initState t0)
  refine ⟨hinv.2, hinv.1, ?_⟩
  intro o evs' h
  rw [run_append]
  exact run_settled_mono exchange evs' _ o h

/-- Witness for `flow_outcomes_and_cleanup` on a concrete timed-out run. -/
theorem flow_outcomes_and_cleanup_witness :
    (run exchFail (initState none) [Event.timeout]).timerActive = false ∧
    (run exchFail (initState none) [Event.timeout]).serverOpen = false ∧
    isProviderErrorOutcome Outcome.timedOut = false ∧
    (run exchFail (initState none)
        ([Event.timeout] ++ [Event.serverErr "EADDRINUSE"])).settled
      = some Outcome.timedOut := by
  have h := flow_outcomes_and_cleanup exchFail none [Event.timeout]
  have hs : (run exchFail (initState none) [Event.timeout]).settled
      = some Outcome.timedOut := rfl
  rcases h.1 Outcome.timedOut hs with ⟨h1, h2, h3⟩
  exact ⟨h1, h2, h3, h.2.2 Outcome.timedOut [Event.serverErr "EADDRINUSE"] hs⟩

/-- C6: a listener `error` event with code `EADDRINUSE` on an open,
unsettled wait settles it with the `portInUse` outcome — an outcome distinct
from `timedOut` — and the timer is cleared and the listener closed before
the error is surfaced. -/
theorem port_in_use_distinct
    (exchange : String → Except String Credentials) (s : FlowState)
    (hopen : s.serverOpen = true) (hunsettled : s.settled = none) :
    (step exchange s (Event.serverErr "EADDRINUSE")).settled
      = some Outcome.portInUse ∧
    (step exchange s (Event.serverErr "EADDRINUSE")).timerActive = false ∧
    (step exchange s (Event.serverErr "EADDRINUSE")).serverOpen = false ∧
    Outcome.portInUse ≠ Outcome.timedOut := by
  refine ⟨?_, ?_, ?_, by decide⟩ <;>
    simp [step, hopen, settle, cleanup, hunsettled]

/-- Witness for `port_in_use_distinct` at the initial state. -/
theorem port_in_use_distinct_witness :
    (step exchFail (initState none) (Event.serverErr "EADDRINUSE")).settled
      = some Outcome.portInUse ∧
    (step exchFail (initState none) (Event.serverErr "EADDRINUSE")).timerActive
      = false ∧
    (step exchFail (initState none) (Event.serverErr "EADDRINUSE")).serverOpen
      = false ∧
    Outcome.portInUse ≠ Outcome.timedOut :=
  port_in_use_distinct exchFail (initState none) rfl rfl

/-- C7 counterexample: the consent URL built by the standalone auth script
(`main` in `src/scripts/auth.ts`) does not set `prompt = consent`. -/
theorem auth_script_no_prompt_cex :
    authScriptAuthUrlParams.prompt ≠ some "consent" ∧
    authScriptAuthUrlParams.access_type = some "offline" ∧
    authScriptAuthUrlParams.scope = YOUTUBE_SCOPES := ⟨by decide, rfl, rfl⟩

/-- C7 amended: the consent URL of `AuthManager.authenticate` requests
offline access, the single fixed YouTube scope and `prompt = consent`; the
consent URL of the standalone auth script requests offline access with the
same single fixed scope but passes no `prompt` parameter, so it does not
force re-consent. -/
theorem consent_url_params :
    authenticateAuthUrlParams.access_type = some "offline" ∧
    authenticateAuthUrlParams.scope = YOUTUBE_SCOPES ∧
    authenticateAuthUrlParams.prompt = some "consent" ∧
    YOUTUBE_SCOPES = ["https://www.googleapis.com/auth/youtube.force-ssl"] ∧
    YOUTUBE_SCOPES.length = 1 ∧
    authScriptAuthUrlParams.access_type = some "offline" ∧
    authScriptAuthUrlParams.scope = YOUTUBE_SCOPES ∧
    authScriptAuthUrlParams.prompt = none :=
  ⟨rfl, rfl, rfl, rfl, rfl, rfl, rfl, rfl⟩

/-- C8 counterexample: a credentials file whose `installed` object carries
`redirect_uris` but neither `client_id` nor `client_secret` is accepted with
no error at all — there is no `CredentialsMalformed` failure; a client with
an undefined identity is returned. -/
theorem missing_client_id_not_rejected_cex :
    (getAuthClient (some credFileNoId) none 0 false (Except.error "net")
        emptyCredentials).result
      = Except.ok { clientId := none, clientSecret := none,
                    redirectUri := some "http://localhost:3000",
                    credentials := emptyCredentials } := rfl

/-- C8 amended: loading the client identity fails with the
credentials-not-found error when the file is absent; when the file exists
there is no distinct `CredentialsMalformed` error — a file with neither
`installed` nor `web`, or whose selected object lacks `redirect_uris`,
raises an untyped JavaScript `TypeError`, while a missing `client_id` or
`client_secret` raises no error at all.  No failure is retried: the
operation is single-shot by construction. -/
theorem load_client_identity_errors
    (t : Option Credentials) (now : Int) (auto : Bool)
    (refreshResult : Except String Credentials) (reauth : Credentials)
    (cf : CredFile) :
    (getAuthClient none t now auto refreshResult reauth).result
      = Except.error AuthError.credentialsNotFound ∧
    (jsOr cf.installed cf.web = none →
      (getAuthClient (some cf) t now auto refreshResult reauth).result
        = Except.error AuthError.jsTypeError) ∧
    (∀ cc, jsOr cf.installed cf.web = some cc → cc.redirect_uris = none →
      (getAuthClient (some cf) t now auto refreshResult reauth).result
        = Except.error AuthError.jsTypeError) ∧
    (∀ cc uris, jsOr cf.installed cf.web = some cc →
      cc.redirect_uris = some uris →
      cc.client_id = none → cc.client_secret = none →
      (getAuthClient (some cf) none now false refreshResult reauth).result
        = Except.ok { clientId := none, clientSecret := none,
                      redirectUri := uris.head?,
                      credentials := emptyCredentials }) := by
  refine ⟨rfl, ?_, ?_, ?_⟩
  · intro h
    simp [getAuthClient, h]
  · intro cc h hr
    simp [getAuthClient, h, hr]
  · intro cc uris h hr hid hsec
    simp [getAuthClient, h, hr, hid, hsec]

/-- Witness for `load_client_identity_errors` at concrete malformed
credential files. -/
theorem load_client_identity_errors_witness :
    (getAuthClient (some credFileEmpty) none 0 false (Except.error "net")
        emptyCredentials).result = Except.error AuthError.jsTypeError ∧
    (getAuthClient (some credFileNoId) none 0 false (Except.error "net")
        emptyCredentials).result
      = Except.ok { clientId := none, clientSecret := none,
                    redirectUri := some "http://localhost:3000",
                    credentials := emptyCredentials } := by
  have h1 := load_client_identity_errors none 0 false (Except.error "net")
    emptyCredentials credFileEmpty
  have h2 := load_client_identity_errors none 0 false (Except.error "net")
    emptyCredentials credFileNoId
  exact ⟨h1.2.1 rfl, h2.2.2.2 ccNoId ["http://localhost:3000"] rfl rfl rfl rfl⟩

/-- C9: for every stored token set without an `expiry_date`, `getAuthClient`
performs no refresh and no re-authentication, saves nothing, and returns the
client with the stored credentials unchanged, for either value of
`autoReauthenticate`. -/
theorem absent_expiry_no_refresh
    (cf : CredFile) (cc : ClientCredentials) (uris : List String)
    (creds reauth : Credentials) (now : Int) (auto : Bool)
    (refreshResult : Except String Credentials)
    (hcc : jsOr cf.installed cf.web = some cc)
    (huris : cc.redirect_uris = some uris)
    (hexp : creds.expiry_date = none) :
    getAuthClient (some cf) (some creds) now auto refreshResult reauth =
      { refreshCalls := 0, authenticateCalled := false, savedTokens := none,
        result := Except.ok { clientId := cc.client_id,
                              clientSecret := cc.client_secret,
                              redirectUri := uris.head?,
                              credentials := creds } } := by
  simp [getAuthClient, hcc, huris, refreshTokensIfNeeded, jsTruthyInt, hexp,
    Except.map]

/-- Witness for `absent_expiry_no_refresh` with `autoReauthenticate` even
enabled. -/
theorem absent_expiry_no_refresh_witness :
    getAuthClient (some credFileW) (some credsNoExpiry) 0 true
        (Except.error "net") emptyCredentials =
      { refreshCalls := 0, authenticateCalled := false, savedTokens := none,
        result := Except.ok { clientId := ccW.client_id,
                              clientSecret := ccW.client_secret,
                              redirectUri := (["http://localhost:3000"]).head?,
                              credentials := credsNoExpiry } } :=
  absent_expiry_no_refresh credFileW ccW ["http://localhost:3000"]
    credsNoExpiry emptyCredentials 0 true (Except.error "net") rfl rfl rfl

/-- C10: when the code-for-token exchange fails, the flow never calls
`saveTokens`: over any run whose exchange oracle always fails, the token
file is left unchanged and any settlement is a rejection, never a
resolution; and in general the token file only ever changes to the result
of a successful exchange. -/
theorem exchange_failure_no_save
    (exchange : String → Except String Credentials)
    (t0 : Option Credentials) (evs : List Event)
    (hfail : ∀ c, ∃ msg, exchange c = Except.error msg) :
    (run exchange (initState t0) evs).tokensFile = t0 ∧
    (∀ o, (run exchange (initState t0) evs).settled = some o →
        isResolution o = false) ∧
    (∀ exch2 t1 evs2, (run exch2 (initState t1) evs2).tokensFile ≠ t1 →
        ∃ c tks, exch2 c = Except.ok tks) := by
  refine ⟨?_, ?_, ?_⟩
  · suffices h : ∀ s : FlowState, (run exchange s evs).tokensFile = s.tokensFile by
      simpa [initState] using h (initState t0)
    intro s
    induction evs generalizing s with
    | nil => rfl
    | cons e rest ih =>
      show (run exchange (step exchange s e) rest).tokensFile = s.tokensFile
      rw [ih (step exchange s e)]
      rcases step_tokensFile exchange s e with h1 | ⟨c, tks, hok, _⟩
      · exact h1
      · rcases hfail c with ⟨msg, hmsg⟩
        rw [hok] at hmsg
        cases hmsg
  · suffices h : ∀ s : FlowState,
        (∀ o, s.settled = some o → isResolution o = false) →
        ∀ o, (run exchange s evs).settled = some o → isResolution o = false by
      refine h (initState t0) ?_
      intro o ho
      simp [initState] at ho
    intro s
    induction evs generalizing s with
    | nil => exact fun hs => hs
    | cons e rest ih =>
      intro hs
      exact ih _ (step_resolution exchange s e hfail hs)
  · intro exch2 t1 evs2 hne
    by_contra hno
    push_neg at hno
    apply hne
    clear hne
    suffices h : ∀ s : FlowState, (run exch2 s evs2).tokensFile = s.tokensFile by
      simpa [initState] using h (initState t1)
    intro s
    induction evs2 generalizing s with
    | nil => rfl
    | cons e rest ih =>
      show (run exch2 (step exch2 s e) rest).tokensFile = s.tokensFile
      rw [ih (step exch2 s e)]
      rcases step_tokensFile exch2 s e with h1 | ⟨c, tks, hok, _⟩
      · exact h1
      · exact absurd hok (hno c tks)

/-- Witness for `exchange_failure_no_save` on a concrete run in which a code
arrives but its exchange fails. -/
theorem exchange_failure_no_save_witness :
    (run exchFail (initState none)
        [Event.request true (some "authcode") none]).tokensFile = none ∧
    (∀ o, (run exchFail (initState none)
        [Event.request true (some "authcode") none]).settled = some o →
        isResolution o = false) ∧
    (∀ exch2 t1 evs2, (run exch2 (initState t1) evs2).tokensFile ≠ t1 →
        ∃ c tks, exch2 c = Except.ok tks) :=
  exchange_failure_no_save exchFail none
    [Event.request true (some "authcode") none]
    (fun _ => ⟨"invalid_grant", rfl⟩)

end Esspec
